import Mathlib

/-!
Shallow embedding of the ink! ERC-20 contract in `src/erc20/lib.rs`
(module `erc20`), together with theorems settling the specification
claims about it.

Modelling conventions:
* `AccountId` is opaque in the contract; we model it as `Nat`.
* `Balance` is Rust `u128`; we model it as `Nat`.  The contract performs
  unchecked `u128` arithmetic.  Both subtractions (`balance_from - value`,
  `allowance - value`) are dominated by an explicit guard, so plain `Nat`
  subtraction coincides with `u128` subtraction there.  The addition
  `balance_to + value` is not guarded, so we reduce it modulo `2 ^ 128`,
  which is the release-mode wrapping semantics of Rust's `+` on `u128`.
* `ink::storage::Mapping` is a key-value store; we model it as an
  association list with overwriting insert, so that "the stored balances"
  (and their sum) are directly observable.
* The ambient caller (`self.env().caller()`) is passed as an explicit
  parameter to every state-mutating operation.
* Events are returned next to the result: each operation yields
  `(result, new state, events emitted by that call)`.
-/

namespace Erc20Spec

abbrev AccountId := Nat

abbrev Balance := Nat

/-- `2 ^ 128`: the modulus of Rust's `u128`, the contract's `Balance` type. -/
def U128_MOD : Nat := 2 ^ 128

/-- Model of `ink::storage::Mapping`: an association list of key/value
pairs with at most one entry per key. -/
def Mapping (K V : Type) : Type := List (K × V)

/-- `Mapping::new()`: the empty mapping (also `Mapping::default()`). -/
def Mapping.new {K V : Type} : Mapping K V := []

/-- `Mapping::get`: the stored value for the key, if present. -/
def Mapping.get {K V : Type} [DecidableEq K] (m : Mapping K V) (k : K) : Option V :=
  match m with
  | [] => none
  | (k₂, v₂) :: rest => if k₂ = k then some v₂ else Mapping.get rest k

/-- `Mapping::insert`: store `v` under `k`, overwriting any prior entry. -/
def Mapping.insert {K V : Type} [DecidableEq K] (m : Mapping K V) (k : K) (v : V) :
    Mapping K V :=
  match m with
  | [] => [(k, v)]
  | (k₂, v₂) :: rest =>
      if k₂ = k then (k, v) :: rest else (k₂, v₂) :: Mapping.insert rest k v

/-- Sum of all stored values of a mapping into `Balance`. -/
def Mapping.sumVals {K : Type} (m : Mapping K Balance) : Balance :=
  (m.map (fun p => p.2)).sum

/-- `enum Error` of the contract. -/
inductive Error : Type
  | BalanceTooLow
  | AllowanceTooLow
deriving DecidableEq, Repr

/-- The contract's events (`Transfer` and `Approval`), with the
`Option<AccountId>` topics of the source. -/
inductive Event : Type
  | Transfer (from_ : Option AccountId) (to_ : Option AccountId) (value : Balance)
  | Approval (from_ : Option AccountId) (to_ : Option AccountId) (value : Balance)
deriving DecidableEq, Repr

instance {K V : Type} [DecidableEq K] [DecidableEq V] : DecidableEq (Mapping K V) :=
  inferInstanceAs (DecidableEq (List (K × V)))

/-- `#[ink(storage)] struct Erc20`. -/
structure Erc20 : Type where
  total_supply : Balance
  balances : Mapping AccountId Balance
  allowances : Mapping (AccountId × AccountId) Balance
deriving DecidableEq

/-- `balance_of`: stored balance, or 0 when absent (`unwrap_or_default`). -/
def Erc20.balance_of (s : Erc20) (who : AccountId) : Balance :=
  (s.balances.get who).getD 0

/-- The allowance lookup `self.allowances.get(&(owner, spender)).unwrap_or_default()`
performed by `transfer_from`. -/
def Erc20.allowance_of (s : Erc20) (owner spender : AccountId) : Balance :=
  (s.allowances.get (owner, spender)).getD 0

/-- Constructor `new(total_supply)`: credits the whole supply to the
constructing caller and emits the minting `Transfer` event.  The caller is
the explicit first argument. -/
def Erc20.new (caller : AccountId) (total_supply : Balance) : Erc20 × List Event :=
  ({ total_supply := total_supply
     balances := Mapping.new.insert caller total_supply
     allowances := Mapping.new },
   [Event.Transfer none (some caller) total_supply])

/-- `transfer_from_to(from, to, value)`.  Faithful to the source: both
balances are read up front, the guard only checks `value > balance_from`,
and the credit writes `balance_to + value` (wrapping `u128` addition)
where `balance_to` is the value read before the debit. -/
def Erc20.transfer_from_to (s : Erc20) (from_ to_ : AccountId) (value : Balance) :
    Except Error Unit × Erc20 × List Event :=
  let balance_from := s.balance_of from_
  let balance_to := s.balance_of to_
  if value > balance_from then
    (Except.error Error.BalanceTooLow, s, [])
  else
    let s1 := { s with balances := s.balances.insert from_ (balance_from - value) }
    let s2 := { s1 with balances := s1.balances.insert to_ ((balance_to + value) % U128_MOD) }
    (Except.ok (), s2, [Event.Transfer (some from_) (some to_) value])

/-- `transfer(to, value)` with the ambient caller made explicit. -/
def Erc20.transfer (s : Erc20) (caller to_ : AccountId) (value : Balance) :
    Except Error Unit × Erc20 × List Event :=
  s.transfer_from_to caller to_ value

/-- `transfer_from(from, to, value)` with the ambient caller (the sender)
made explicit: checks the allowance, decrements it, then delegates to
`transfer_from_to`. -/
def Erc20.transfer_from (s : Erc20) (caller from_ to_ : AccountId) (value : Balance) :
    Except Error Unit × Erc20 × List Event :=
  let allowance := (s.allowances.get (from_, caller)).getD 0
  if allowance < value then
    (Except.error Error.AllowanceTooLow, s, [])
  else
    let s1 := { s with allowances := s.allowances.insert (from_, caller) (allowance - value) }
    s1.transfer_from_to from_ to_ value

/-- `approve(spender, value)` with the ambient caller made explicit:
overwrites the allowance and emits an `Approval` event; never fails. -/
def Erc20.approve (s : Erc20) (caller spender : AccountId) (value : Balance) :
    Except Error Unit × Erc20 × List Event :=
  (Except.ok (),
   { s with allowances := s.allowances.insert (caller, spender) value },
   [Event.Approval (some caller) (some spender) value])

/-- Sum of all stored account balances of the ledger. -/
def Erc20.sumBalances (s : Erc20) : Balance :=
  s.balances.sumVals

theorem Mapping.get_insert_self {K V : Type} [DecidableEq K]
    (m : Mapping K V) (k : K) (v : V) : (m.insert k v).get k = some v := by
  induction m with
  | nil => simp [Mapping.insert, Mapping.get]
  | cons p rest ih =>
      obtain ⟨k₂, v₂⟩ := p
      by_cases hk : k₂ = k
      · subst hk
        simp [Mapping.insert, Mapping.get]
      · simp [Mapping.insert, Mapping.get, hk, ih]

theorem Mapping.get_insert_ne {K V : Type} [DecidableEq K]
    (m : Mapping K V) (k k' : K) (v : V) (h : k' ≠ k) :
    (m.insert k v).get k' = m.get k' := by
  induction m with
  | nil =>
      simp only [Mapping.insert, Mapping.get]
      rw [if_neg (fun hh => h hh.symm)]
  | cons p rest ih =>
      obtain ⟨k₂, v₂⟩ := p
      by_cases hk : k₂ = k
      · subst hk
        simp only [Mapping.insert, if_pos rfl, Mapping.get]
        rw [if_neg (fun hh => h hh.symm), if_neg (fun hh => h hh.symm)]
      · simp only [Mapping.insert, if_neg hk, Mapping.get]
        by_cases hk' : k₂ = k'
        · rw [if_pos hk', if_pos hk']
        · rw [if_neg hk', if_neg hk', ih]

/-- Shared helper: `transfer` with an insufficient caller balance hits the
`BalanceTooLow` early return of `transfer_from_to`, so the state and event
list come back exactly as they were. -/
theorem Erc20.transfer_low_balance (s : Erc20) (caller to_ : AccountId) (value : Balance)
    (h : s.balance_of caller < value) :
    s.transfer caller to_ value = (Except.error Error.BalanceTooLow, s, []) := by
  simp [Erc20.transfer, Erc20.transfer_from_to, h]

/-- Shared helper: `transfer_from` with an insufficient allowance hits the
`AllowanceTooLow` early return before any write. -/
theorem Erc20.transfer_from_low_allowance (s : Erc20) (caller from_ to_ : AccountId)
    (value : Balance) (h : s.allowance_of from_ caller < value) :
    s.transfer_from caller from_ to_ value = (Except.error Error.AllowanceTooLow, s, []) := by
  simp only [Erc20.allowance_of] at h
  simp [Erc20.transfer_from, h]

/-- C1: the conservation claim fails on the code.  From the fresh ledger
`new(100)`, the single successful public operation `transfer(to := caller,
value := 50)` (a self-transfer) leaves the stored balances summing to 150
while the total supply is 100: `transfer_from_to` reads `balance_to` before
debiting `from`, so a self-transfer credits the stale balance and mints
`value` tokens. -/
theorem conservation_violated_by_self_transfer :
    ((Erc20.new 0 100).1.transfer 0 0 50).1 = Except.ok () ∧
    ((Erc20.new 0 100).1.transfer 0 0 50).2.1.total_supply = 100 ∧
    ((Erc20.new 0 100).1.transfer 0 0 50).2.1.sumBalances = 150 :=
  ⟨rfl, rfl, rfl⟩

/-- C2: the self-transfer no-op claim fails on the code.  With
`balance_of(a) = 50`, the self-transfer `transfer(a, a, 50)` does return
`Ok(())` and does emit exactly one `Transfer` event, but the balance
becomes 100 rather than staying 50, because the credit uses the recipient
balance read before the debit. -/
theorem self_transfer_not_noop :
    (Erc20.new 0 50).1.balance_of 0 = 50 ∧
    ((Erc20.new 0 50).1.transfer 0 0 50).1 = Except.ok () ∧
    ((Erc20.new 0 50).1.transfer 0 0 50).2.1.balance_of 0 = 100 ∧
    ((Erc20.new 0 50).1.transfer 0 0 50).2.2 = [Event.Transfer (some 0) (some 0) 50] :=
  ⟨rfl, rfl, rfl, rfl⟩

/-- C4: the no-silent-wraparound claim fails on the code.  The credit
`balance_to + value` is unchecked `u128` addition; starting from the fresh
ledger `new(2^127 + 1)`, the successful public self-transfer of the whole
balance makes the credited sum exceed `2^128 - 1`, and the operation
returns `Ok(())` with the balance silently wrapped to 2 instead of
surfacing any error. -/
theorem unchecked_addition_wraps_silently :
    ((Erc20.new 0 (2 ^ 127 + 1)).1.transfer 0 0 (2 ^ 127 + 1)).1 = Except.ok () ∧
    ((Erc20.new 0 (2 ^ 127 + 1)).1.transfer 0 0 (2 ^ 127 + 1)).2.1.balance_of 0 = 2 :=
  ⟨rfl, rfl⟩

/-- C3: when the allowance covers `value` but the owner's balance does not,
`transfer_from` returns `Err(BalanceTooLow)`, yet the allowance of
`(from, caller)` has already been decremented by `value`, while the
balances mapping is exactly unchanged. -/
theorem transfer_from_balance_failure_decrements_allowance
    (s : Erc20) (caller from_ to_ : AccountId) (value : Balance)
    (hal : value ≤ s.allowance_of from_ caller)
    (hbal : s.balance_of from_ < value) :
    (s.transfer_from caller from_ to_ value).1 = Except.error Error.BalanceTooLow ∧
    (s.transfer_from caller from_ to_ value).2.1.allowance_of from_ caller
      = s.allowance_of from_ caller - value ∧
    (s.transfer_from caller from_ to_ value).2.1.balances = s.balances := by
  have hal' : ¬ (s.allowances.get (from_, caller)).getD 0 < value := Nat.not_lt.mpr hal
  have hbal' : (s.balances.get from_).getD 0 < value := hbal
  simp [Erc20.transfer_from, Erc20.transfer_from_to, Erc20.balance_of, Erc20.allowance_of,
    hal', hbal', Mapping.get_insert_self]

/-- C3 witness: owner 1 has balance 0 but approved spender 2 for 50; the
delegated transfer of 30 fails with `BalanceTooLow` and still leaves the
allowance at 20. -/
theorem transfer_from_balance_failure_decrements_allowance_witness :
    ((((Erc20.new 0 100).1.approve 1 2 50).2.1.transfer_from 2 1 3 30).2.1.allowance_of 1 2)
      = 20 := by
  have h := transfer_from_balance_failure_decrements_allowance
    ((Erc20.new 0 100).1.approve 1 2 50).2.1 2 1 3 30 (by decide) (by decide)
  exact h.2.1.trans (by decide)

/-- C5: `transfer` with `value` exceeding the caller's balance returns
`Err(BalanceTooLow)` and returns the state exactly unchanged (every
balance and allowance as before) with no event emitted. -/
theorem transfer_insufficient_balance_atomic
    (s : Erc20) (caller to_ : AccountId) (value : Balance)
    (h : s.balance_of caller < value) :
    s.transfer caller to_ value = (Except.error Error.BalanceTooLow, s, []) :=
  Erc20.transfer_low_balance s caller to_ value h

/-- C5 witness: account 1 holds 0 in the fresh ledger `new(100)` owned by
account 0; its transfer of 100 to account 2 fails silently and atomically. -/
theorem transfer_insufficient_balance_atomic_witness :
    (Erc20.new 0 100).1.transfer 1 2 100
      = (Except.error Error.BalanceTooLow, (Erc20.new 0 100).1, []) :=
  transfer_insufficient_balance_atomic (Erc20.new 0 100).1 1 2 100 (by decide)

/-- C6: `transfer_from` with `value` exceeding `allowance(from, caller)`
returns `Err(AllowanceTooLow)` and returns the state exactly unchanged
(balances and allowances untouched) with no event emitted. -/
theorem transfer_from_insufficient_allowance_atomic
    (s : Erc20) (caller from_ to_ : AccountId) (value : Balance)
    (h : s.allowance_of from_ caller < value) :
    s.transfer_from caller from_ to_ value = (Except.error Error.AllowanceTooLow, s, []) :=
  Erc20.transfer_from_low_allowance s caller from_ to_ value h

/-- C6 witness: in the fresh ledger `new(100)` owned by account 0, spender
1 has allowance 0 from owner 0, so a delegated transfer of 5 fails
atomically with `AllowanceTooLow`. -/
theorem transfer_from_insufficient_allowance_atomic_witness :
    (Erc20.new 0 100).1.transfer_from 1 0 2 5
      = (Except.error Error.AllowanceTooLow, (Erc20.new 0 100).1, []) :=
  transfer_from_insufficient_allowance_atomic (Erc20.new 0 100).1 1 0 2 5 (by decide)

/-- C7: `approve` always returns `Ok(())`, overwrites
`allowance(caller, spender)` with exactly `value` whatever its prior value
was (so approving 50 and then 20 leaves 20), leaves balances and the total
supply untouched, and emits exactly one `Approval` event carrying the
caller, the spender and `value`. -/
theorem approve_overwrites_never_fails
    (s : Erc20) (caller spender : AccountId) (value : Balance) :
    (s.approve caller spender value).1 = Except.ok () ∧
    (s.approve caller spender value).2.1.allowance_of caller spender = value ∧
    (s.approve caller spender value).2.1.balances = s.balances ∧
    (s.approve caller spender value).2.1.total_supply = s.total_supply ∧
    (s.approve caller spender value).2.2
      = [Event.Approval (some caller) (some spender) value] := by
  simp [Erc20.approve, Erc20.allowance_of, Mapping.get_insert_self]

/-- C8: `new(S)` (called by any constructing caller) has no error path and
yields `total_supply() = S`, `balance_of(caller) = S`, balance 0 for every
other account and allowance 0 for every pair, and emits exactly the one
minting `Transfer` event `from = none, to = caller, value = S`. -/
theorem new_initializes
    (caller : AccountId) (supply : Balance) :
    (Erc20.new caller supply).1.total_supply = supply ∧
    (Erc20.new caller supply).1.balance_of caller = supply ∧
    (∀ a : AccountId, a ≠ caller → (Erc20.new caller supply).1.balance_of a = 0) ∧
    (∀ o sp : AccountId, (Erc20.new caller supply).1.allowance_of o sp = 0) ∧
    (Erc20.new caller supply).2 = [Event.Transfer none (some caller) supply] := by
  refine ⟨rfl, ?_, ?_, ?_, rfl⟩
  · simp [Erc20.new, Erc20.balance_of, Mapping.new, Mapping.get, Mapping.insert]
  · intro a ha
    have ha' : caller ≠ a := fun hh => ha hh.symm
    simp [Erc20.new, Erc20.balance_of, Mapping.new, Mapping.get, Mapping.insert, ha']
  · intro o sp
    simp [Erc20.new, Erc20.allowance_of, Mapping.new, Mapping.get]

/-- C8 witness: `new(100)` constructed by account 7 leaves account 3 with
balance 0 and the pair (1, 2) with allowance 0. -/
theorem new_initializes_witness :
    (Erc20.new 7 100).1.balance_of 3 = 0 ∧ (Erc20.new 7 100).1.allowance_of 1 2 = 0 :=
  ⟨(new_initializes 7 100).2.2.1 3 (by decide), (new_initializes 7 100).2.2.2.1 1 2⟩

/-- C9: the allowance check of `transfer_from` has no owner special case:
even when the caller is `from` itself and the balance covers `value > 0`,
an allowance `allowance(from, from) < value` makes the call fail with
`AllowanceTooLow`, state unchanged. -/
theorem transfer_from_needs_self_allowance
    (s : Erc20) (from_ to_ : AccountId) (value : Balance)
    (hv : 0 < value)
    (hbal : value ≤ s.balance_of from_)
    (hal : s.allowance_of from_ from_ < value) :
    s.transfer_from from_ from_ to_ value = (Except.error Error.AllowanceTooLow, s, []) :=
  Erc20.transfer_from_low_allowance s from_ from_ to_ value hal

/-- C9 witness: account 0 owns the whole supply 10 of the fresh ledger but
has no self-allowance, so its own `transfer_from(0, 1, 5)` fails with
`AllowanceTooLow`. -/
theorem transfer_from_needs_self_allowance_witness :
    (Erc20.new 0 10).1.transfer_from 0 0 1 5
      = (Except.error Error.AllowanceTooLow, (Erc20.new 0 10).1, []) :=
  transfer_from_needs_self_allowance (Erc20.new 0 10).1 0 1 5 (by decide) (by decide)
    (by decide)

/-- C10: frame of a successful direct transfer: when `value` is within the
caller's balance, `transfer` returns `Ok(())`, and the total supply, the
whole allowances mapping, and the balance of every account other than the
caller and the recipient are unchanged. -/
theorem transfer_success_frame
    (s : Erc20) (caller to_ : AccountId) (value : Balance)
    (h : value ≤ s.balance_of caller) :
    (s.transfer caller to_ value).1 = Except.ok () ∧
    (s.transfer caller to_ value).2.1.total_supply = s.total_supply ∧
    (s.transfer caller to_ value).2.1.allowances = s.allowances ∧
    ∀ a : AccountId, a ≠ caller → a ≠ to_ →
      (s.transfer caller to_ value).2.1.balance_of a = s.balance_of a := by
  have h' : ¬ s.balance_of caller < value := Nat.not_lt.mpr h
  simp only [Erc20.transfer, Erc20.transfer_from_to, gt_iff_lt, h', if_false]
  refine ⟨trivial, trivial, trivial, ?_⟩
  intro a ha hto
  simp [Erc20.balance_of, Mapping.get_insert_ne _ _ _ _ hto, Mapping.get_insert_ne _ _ _ _ ha]

/-- C10 witness: after the owner 0 of the fresh ledger `new(100)`
transfers 30 to account 1, the bystander account 2 still has balance 0. -/
theorem transfer_success_frame_witness :
    ((Erc20.new 0 100).1.transfer 0 1 30).2.1.balance_of 2
      = (Erc20.new 0 100).1.balance_of 2 :=
  (transfer_success_frame (Erc20.new 0 100).1 0 1 30 (by decide)).2.2.2 2 (by decide)
    (by decide)

end Erc20Spec
